import Mathlib

/-!
Verification of the rezervo-cache schedule pipeline.

The development shallowly embeds the program's core: the week-window
computation (`get_current_iso_week`, `get_next_iso_week` in `src/main.rs`),
the fetch/dedupe/filter pipeline (`fetch_brp_schedule_for_week`), and the
cache key/TTL scheme (`store_schedule_with_week`, `store_class` in
`src/cache.rs`).

Modelling conventions:
* JSON values (`serde_json::Value`) are the inductive `Value`; numbers are
  modelled as integers (the pipeline only ever reads integer ids).
* Calendar dates (`chrono::NaiveDate`) are modelled by their proleptic
  Gregorian day number (`0001-01-01` is day `1`, and is a Monday), so
  `weekday().num_days_from_monday()` is `(d - 1) mod 7` and adding a
  `chrono::Duration` of days is integer addition.
* `chrono::NaiveDate::iso_week` is modelled by `isoWeekOf`, the standard
  ISO-8601 week-numbering rule (week 1 is the week containing the year's
  first Thursday), which is the documented behaviour of `iso_week`.
* The HTTP layer is abstracted as the response the program observes:
  `send()` either fails at transport level or yields a status code together
  with the result of parsing the body as a JSON list.
* Cache writes are modelled as the `CacheEntry` (key, payload, TTL) the
  program submits; the outcome of each write is an oracle parameter of the
  run, mirroring that a Redis write may fail independently of the data.
* `Utc::now().date_naive()` is the `today` parameter of the run.
-/

namespace RezervoCache

/-- JSON value, embedding `serde_json::Value`; numbers are integers. -/
inductive Value where
  | null : Value
  | bool : Bool → Value
  | num : Int → Value
  | str : String → Value
  | arr : List Value → Value
  | obj : List (String × Value) → Value

/-- First-match lookup in a JSON object's field list. -/
def lookupField : List (String × Value) → String → Option Value
  | [], _ => none
  | (k, v) :: rest, key => if k = key then some v else lookupField rest key

/-- Embedding of `serde_json::Value::get` for a string key. -/
def Value.get : Value → String → Option Value
  | .obj fields, key => lookupField fields key
  | _, _ => none

/-- Embedding of `serde_json::Value::as_i64`. -/
def Value.asInt : Value → Option Int
  | .num n => some n
  | _ => none

/-- A JSON string, as required when decoding a `String` field. -/
def Value.asStr : Value → Option String
  | .str s => some s
  | _ => none

/-- A JSON boolean, as required when decoding a `bool` field. -/
def Value.asBool : Value → Option Bool
  | .bool b => some b
  | _ => none

/-- A JSON array, as required when decoding a `Vec<Value>` field. -/
def Value.asArr : Value → Option (List Value)
  | .arr xs => some xs
  | _ => none

/-- Embedding of the `FilteredClass` struct of `src/main.rs` (the spec's
`ScheduleClass`): the decoded shape of a booking-eligible activity. -/
structure FilteredClass where
  bookable_earliest : String
  bookable_latest : String
  id : Int
  name : String
  duration : Value
  group_activity_product : Value
  business_unit : Value
  locations : List Value
  instructors : List Value
  external_message : Option String
  cancelled : Bool
  slots : Value

/-- Serde decoding of an `Option<String>` field: absent or `null` becomes
`none`; a string becomes `some`; any other shape is a decode error. -/
def decodeOptStr : Option Value → Option (Option String)
  | none => some none
  | some .null => some none
  | some (.str s) => some (some s)
  | some _ => none

/-- Embedding of `serde_json::from_value::<FilteredClass>`: each required
field must be present with the right shape; `externalMessage` is optional. -/
def fromValue (v : Value) : Option FilteredClass := do
  let be ← (v.get "bookableEarliest").bind Value.asStr
  let bl ← (v.get "bookableLatest").bind Value.asStr
  let i ← (v.get "id").bind Value.asInt
  let nm ← (v.get "name").bind Value.asStr
  let dur ← v.get "duration"
  let gap ← v.get "groupActivityProduct"
  let bu ← v.get "businessUnit"
  let locs ← (v.get "locations").bind Value.asArr
  let ins ← (v.get "instructors").bind Value.asArr
  let em ← decodeOptStr (v.get "externalMessage")
  let can ← (v.get "cancelled").bind Value.asBool
  let sl ← v.get "slots"
  pure ⟨be, bl, i, nm, dur, gap, bu, locs, ins, em, can, sl⟩

/-- Embedding of `item.get("id").and_then(|v| v.as_i64())`. -/
def getId (v : Value) : Option Int :=
  (v.get "id").bind Value.asInt

/-- Embedding of the booking-window presence test
`item.get("bookableEarliest").is_some() && item.get("bookableLatest").is_some()`. -/
def hasBookable (v : Value) : Bool :=
  (v.get "bookableEarliest").isSome && (v.get "bookableLatest").isSome

/-- The deduplicate/filter loop of `fetch_brp_schedule_for_week`
(`src/main.rs`): `seen` is the `seen_ids` set of decimal id strings.  The id
is inserted into `seen` as soon as it is first encountered — before the
booking-window and decode checks — exactly as in the source. -/
def filterClasses : List Value → List String → List FilteredClass
  | [], _ => []
  | item :: rest, seen =>
    match getId item with
    | none => filterClasses rest seen
    | some i =>
      let idString := toString i
      if seen.contains idString then
        filterClasses rest seen
      else
        if hasBookable item then
          match fromValue item with
          | some c => c :: filterClasses rest (idString :: seen)
          | none => filterClasses rest (idString :: seen)
        else
          filterClasses rest (idString :: seen)

/-- The `seen_ids` set after the loop has processed a list of items,
starting from `seen`. -/
def seenAfter : List Value → List String → List String
  | [], seen => seen
  | item :: rest, seen =>
    match getId item with
    | none => seenAfter rest seen
    | some i =>
      let idString := toString i
      if seen.contains idString then
        seenAfter rest seen
      else
        seenAfter rest (idString :: seen)

/-- Embedding of `weekday().num_days_from_monday()` on a proleptic Gregorian
day number: day `1` (`0001-01-01`) is a Monday. -/
def num_days_from_monday (d : Int) : Int :=
  (d - 1) % 7

/-- Days before January 1 of year `y` (so day number of `y-01-01` is
`daysBeforeYear y + 1`). -/
def daysBeforeYear (y : Int) : Int :=
  365 * (y - 1) + Int.fdiv (y - 1) 4 - Int.fdiv (y - 1) 100 + Int.fdiv (y - 1) 400

/-- Calendar year containing day number `n` (civil-from-days algorithm,
floor divisions throughout). -/
def yearOfDay (n : Int) : Int :=
  let z := n + 305
  let era := Int.fdiv z 146097
  let doe := z - era * 146097
  let yoe := Int.fdiv (doe - Int.fdiv doe 1460 + Int.fdiv doe 36524 - Int.fdiv doe 146096) 365
  let y := yoe + era * 400
  let doy := doe - (365 * yoe + Int.fdiv yoe 4 - Int.fdiv yoe 100)
  let mp := Int.fdiv (5 * doy + 2) 153
  let m := if mp < 10 then mp + 3 else mp - 9
  if m ≤ 2 then y + 1 else y

/-- Weekday index (Monday = 1 … Sunday = 7) used by the ISO week rule. -/
def isoWeekdayNum (n : Int) : Int :=
  (n - 1) % 7 + 1

/-- Helper for the 52/53-week rule: weekday index of December 31 of `y`. -/
def isoWeekP (y : Int) : Int :=
  (y + Int.fdiv y 4 - Int.fdiv y 100 + Int.fdiv y 400) % 7

/-- Number of ISO weeks in ISO year `y` (53 when the year starts on a
Thursday, or is a leap year starting on a Wednesday). -/
def isoWeeksInYear (y : Int) : Int :=
  if isoWeekP y = 4 ∨ isoWeekP (y - 1) = 3 then 53 else 52

/-- ISO-8601 `(year, week)` of day number `n`: models
`chrono::NaiveDate::iso_week`, whose documented behaviour is the ISO-8601
week-numbering rule (week 1 contains the year's first Thursday). -/
def isoWeekOf (n : Int) : Int × Int :=
  let y := yearOfDay n
  let ord := n - daysBeforeYear y
  let w := Int.fdiv (ord - isoWeekdayNum n + 10) 7
  if w < 1 then (y - 1, isoWeeksInYear (y - 1))
  else if isoWeeksInYear y < w then (y + 1, 1)
  else (y, w)

/-- Day number of the civil date `y-m-d` (days-from-civil algorithm), for
stating concrete scenarios with readable dates. -/
def days_from_civil (y m d : Int) : Int :=
  let yA := if m ≤ 2 then y - 1 else y
  let era := Int.fdiv yA 400
  let yoe := yA - era * 400
  let mp := (m + 9) % 12
  let doy := Int.fdiv (153 * mp + 2) 5 + d - 1
  let doe := yoe * 365 + Int.fdiv yoe 4 - Int.fdiv yoe 100 + doy
  era * 146097 + doe - 305

/-- Embedding of `get_current_iso_week` (`src/main.rs`): Monday, Sunday and
ISO week of the week containing `today`. -/
def get_current_iso_week (today : Int) : Int × Int × (Int × Int) :=
  let iso_week := isoWeekOf today
  let days_from_monday := num_days_from_monday today
  let week_start := today - days_from_monday
  let week_end := week_start + 6
  (week_start, week_end, iso_week)

/-- Embedding of `get_next_iso_week` (`src/main.rs`): the same computation
applied to `today + 7 days`. -/
def get_next_iso_week (today : Int) : Int × Int × (Int × Int) :=
  let next_week_date := today + 7
  let iso_week := isoWeekOf next_week_date
  let days_from_monday := num_days_from_monday next_week_date
  let week_start := next_week_date - days_from_monday
  let week_end := week_start + 6
  (week_start, week_end, iso_week)

/-- Rust's `{:02}` formatting of a (non-negative) week number. -/
def pad2 (n : Int) : String :=
  if n < 10 then "0" ++ toString n else toString n

/-- Embedding of `format_iso_week` (`src/main.rs`). -/
def format_iso_week (iso_week : Int × Int) : String :=
  toString iso_week.1 ++ "-W" ++ pad2 iso_week.2

/-- Payload of a cache write: a whole-week snapshot or a single class. -/
inductive CachePayload where
  | week : List FilteredClass → CachePayload
  | single : FilteredClass → CachePayload

/-- A (key, payload, TTL-seconds) triple submitted to the cache store. -/
structure CacheEntry where
  key : String
  payload : CachePayload
  ttl : Nat

/-- Embedding of `RedisCache::store_schedule_with_week` (`src/cache.rs`):
key `schedule:{sub}:{bu}:{year}-W{week:02}`, TTL `7 * 24 * 3600`. -/
def store_schedule_with_week (subdomain : String) (business_unit : Nat)
    (iso_week : Int × Int) (schedule : List FilteredClass) : CacheEntry :=
  { key := "schedule:" ++ subdomain ++ ":" ++ toString business_unit ++ ":"
      ++ toString iso_week.1 ++ "-W" ++ pad2 iso_week.2
    payload := .week schedule
    ttl := 7 * 24 * 3600 }

/-- Embedding of `RedisCache::store_class` (`src/cache.rs`):
key `class:{sub}:{bu}:{id}`, TTL `7 * 24 * 3600`. -/
def store_class (subdomain : String) (business_unit : Nat)
    (c : FilteredClass) : CacheEntry :=
  { key := "class:" ++ subdomain ++ ":" ++ toString business_unit ++ ":" ++ toString c.id
    payload := .single c
    ttl := 7 * 24 * 3600 }

/-- What the program observes of one upstream HTTP exchange after `send()`
succeeded: the status code, and the result of `.json::<Vec<Value>>()`. -/
structure HttpResponse where
  status : Nat
  body : Except String (List Value)

/-- `reqwest::StatusCode::is_success`: the 2xx range. -/
def statusIsSuccess (s : Nat) : Bool :=
  200 ≤ s && s < 300

/-- Embedding of `fetch_brp_schedule_for_week` (`src/main.rs`) over the
observed exchange: a transport failure (`send()?`) propagates, a non-2xx
status is an error, a body that fails to parse propagates, and otherwise
the items are deduplicated/filtered starting from an empty `seen_ids`. -/
def fetch_brp_schedule_for_week (resp : Except String HttpResponse) :
    Except String (List FilteredClass) :=
  match resp with
  | .error e => .error e
  | .ok r =>
    if statusIsSuccess r.status then
      match r.body with
      | .error e => .error e
      | .ok items => .ok (filterClasses items [])
    else
      .error ("Failed to fetch schedule: " ++ toString r.status)

/-- Observable outcome of one run of `main`: the process result (`Err`
means a non-zero exit), the cache writes submitted in order, and the
warnings emitted for failed writes. -/
structure RunResult where
  exit : Except String Unit
  writes : List CacheEntry
  warnings : List String

/-- Embedding of `main` (`src/main.rs`): both fetches run (with `?`) before
any cache write; then the current-week snapshot, the current-week per-class
writes, the next-week snapshot and the next-week per-class writes are
submitted in order.  `write_outcome` is the oracle giving each write's
result; a failed write only emits a warning. -/
def mainRun (subdomain : String) (business_unit : Nat) (today : Int)
    (current_resp next_resp : Except String HttpResponse)
    (write_outcome : CacheEntry → Except String Unit) : RunResult :=
  let current_iso_week := (get_current_iso_week today).2.2
  let next_iso_week := (get_next_iso_week today).2.2
  match fetch_brp_schedule_for_week current_resp with
  | .error e => { exit := .error e, writes := [], warnings := [] }
  | .ok current_schedule =>
    match fetch_brp_schedule_for_week next_resp with
    | .error e => { exit := .error e, writes := [], warnings := [] }
    | .ok next_schedule =>
      let entries :=
        store_schedule_with_week subdomain business_unit current_iso_week current_schedule
          :: (current_schedule.map (store_class subdomain business_unit)
            ++ store_schedule_with_week subdomain business_unit next_iso_week next_schedule
            :: next_schedule.map (store_class subdomain business_unit))
      { exit := .ok ()
        writes := entries
        warnings := entries.filterMap fun en =>
          match write_outcome en with
          | .error e => some e
          | .ok _ => none }

/-! Concrete upstream records for the spec's scenarios: ids `[5, 5, 7, 9]`,
where id 5's first occurrence has both booking fields, id 5's second
occurrence lacks `bookableLatest`, id 7 lacks `bookableEarliest`, and id 9
has both. -/

/-- First occurrence of id 5: complete record, both booking fields. -/
def item5Full : Value := .obj
  [ ("id", .num 5)
  , ("name", .str "Yoga")
  , ("bookableEarliest", .str "2023-12-25T10:00:00Z")
  , ("bookableLatest", .str "2024-01-01T09:00:00Z")
  , ("duration", .obj [("start", .str "2024-01-01T10:00:00Z"), ("end", .str "2024-01-01T11:00:00Z")])
  , ("groupActivityProduct", .obj [("id", .num 101), ("name", .str "Yoga")])
  , ("businessUnit", .obj [("id", .num 1)])
  , ("locations", .arr [.obj [("name", .str "Room A")]])
  , ("instructors", .arr [])
  , ("cancelled", .bool false)
  , ("slots", .obj [("total", .num 20), ("leftToBook", .num 7)]) ]

/-- Second occurrence of id 5: lacks `bookableLatest`, otherwise complete. -/
def item5NoLatest : Value := .obj
  [ ("id", .num 5)
  , ("name", .str "Yoga")
  , ("bookableEarliest", .str "2023-12-25T10:00:00Z")
  , ("duration", .obj [("start", .str "2024-01-01T10:00:00Z"), ("end", .str "2024-01-01T11:00:00Z")])
  , ("groupActivityProduct", .obj [("id", .num 101), ("name", .str "Yoga")])
  , ("businessUnit", .obj [("id", .num 1)])
  , ("locations", .arr [.obj [("name", .str "Room A")]])
  , ("instructors", .arr [])
  , ("cancelled", .bool false)
  , ("slots", .obj [("total", .num 20), ("leftToBook", .num 7)]) ]

/-- Record with id 7: lacks `bookableEarliest`, otherwise complete. -/
def item7NoEarliest : Value := .obj
  [ ("id", .num 7)
  , ("name", .str "Pilates")
  , ("bookableLatest", .str "2024-01-02T09:00:00Z")
  , ("duration", .obj [("start", .str "2024-01-02T10:00:00Z"), ("end", .str "2024-01-02T11:00:00Z")])
  , ("groupActivityProduct", .obj [("id", .num 102), ("name", .str "Pilates")])
  , ("businessUnit", .obj [("id", .num 1)])
  , ("locations", .arr [.obj [("name", .str "Room B")]])
  , ("instructors", .arr [])
  , ("cancelled", .bool false)
  , ("slots", .obj [("total", .num 12), ("leftToBook", .num 3)]) ]

/-- Record with id 9: complete record, both booking fields. -/
def item9Full : Value := .obj
  [ ("id", .num 9)
  , ("name", .str "Spin")
  , ("bookableEarliest", .str "2023-12-27T18:00:00Z")
  , ("bookableLatest", .str "2024-01-03T17:00:00Z")
  , ("duration", .obj [("start", .str "2024-01-03T18:00:00Z"), ("end", .str "2024-01-03T19:00:00Z")])
  , ("groupActivityProduct", .obj [("id", .num 103), ("name", .str "Spin")])
  , ("businessUnit", .obj [("id", .num 1)])
  , ("locations", .arr [.obj [("name", .str "Spin Studio")]])
  , ("instructors", .arr [.obj [("name", .str "Alex")]])
  , ("cancelled", .bool false)
  , ("slots", .obj [("total", .num 30), ("leftToBook", .num 11)]) ]

/-- The scenario's upstream response: ids `[5, 5, 7, 9]`. -/
def scenarioItems : List Value :=
  [item5Full, item5NoLatest, item7NoEarliest, item9Full]

/-- The `FilteredClass` that `item5Full` decodes to. -/
def class5 : FilteredClass :=
  ⟨"2023-12-25T10:00:00Z", "2024-01-01T09:00:00Z", 5, "Yoga",
    .obj [("start", .str "2024-01-01T10:00:00Z"), ("end", .str "2024-01-01T11:00:00Z")],
    .obj [("id", .num 101), ("name", .str "Yoga")],
    .obj [("id", .num 1)],
    [.obj [("name", .str "Room A")]], [], none, false,
    .obj [("total", .num 20), ("leftToBook", .num 7)]⟩

/-- The `FilteredClass` that `item9Full` decodes to. -/
def class9 : FilteredClass :=
  ⟨"2023-12-27T18:00:00Z", "2024-01-03T17:00:00Z", 9, "Spin",
    .obj [("start", .str "2024-01-03T18:00:00Z"), ("end", .str "2024-01-03T19:00:00Z")],
    .obj [("id", .num 103), ("name", .str "Spin")],
    .obj [("id", .num 1)],
    [.obj [("name", .str "Spin Studio")]], [.obj [("name", .str "Alex")]], none, false,
    .obj [("total", .num 30), ("leftToBook", .num 11)]⟩

/-! ### Injectivity of decimal rendering

The dedup set `seen_ids` holds `id.to_string()` strings, so relating
string-level membership back to integer identifiers needs injectivity of
`toString : Int → String`, proved here from first principles. -/

/-- Little-endian decimal digit characters of a natural number. -/
def digitsLE (n : Nat) : List Char :=
  if h : n < 10 then [Nat.digitChar n]
  else Nat.digitChar (n % 10) :: digitsLE (n / 10)
decreasing_by exact Nat.div_lt_self (by omega) (by omega)

lemma digitsLE_lt {n : Nat} (h : n < 10) : digitsLE n = [Nat.digitChar n] := by
  rw [digitsLE]; simp [h]

lemma digitsLE_ge {n : Nat} (h : ¬ n < 10) :
    digitsLE n = Nat.digitChar (n % 10) :: digitsLE (n / 10) := by
  rw [digitsLE]; simp [h]

lemma digitsLE_ne_nil (n : Nat) : digitsLE n ≠ [] := by
  by_cases h : n < 10
  · rw [digitsLE_lt h]; simp
  · rw [digitsLE_ge h]; simp

lemma digitChar_inj_lt : ∀ x < 10, ∀ y < 10, Nat.digitChar x = Nat.digitChar y → x = y := by
  decide

lemma toDigitsCore_eq (fuel : Nat) : ∀ (n : Nat) (ds : List Char), n < fuel →
    Nat.toDigitsCore 10 fuel n ds = (digitsLE n).reverse ++ ds := by
  induction fuel with
  | zero => omega
  | succ f ih =>
    intro n ds h
    rw [Nat.toDigitsCore]
    by_cases h0 : n / 10 = 0
    · have hn : n < 10 := by omega
      simp only [h0, if_true]
      rw [digitsLE_lt hn, Nat.mod_eq_of_lt hn]
      simp
    · have hn : ¬ n < 10 := by omega
      simp only [h0, if_false]
      rw [ih (n / 10) _ (by omega), digitsLE_ge hn]
      simp [List.append_assoc]

lemma natRepr_eq (n : Nat) : Nat.repr n = ((digitsLE n).reverse).asString := by
  rw [Nat.repr, Nat.toDigits, toDigitsCore_eq _ _ _ (Nat.lt_succ_self n), List.append_nil]

lemma mem_digitsLE (n : Nat) : ∀ c ∈ digitsLE n, ∃ d, d < 10 ∧ c = Nat.digitChar d := by
  induction n using Nat.strong_induction_on with
  | _ n ih =>
    by_cases h : n < 10
    · rw [digitsLE_lt h]
      intro c hc
      simp at hc
      exact ⟨n, by omega, hc⟩
    · rw [digitsLE_ge h]
      intro c hc
      rcases List.mem_cons.mp hc with hc | hc
      · exact ⟨n % 10, by omega, hc⟩
      · exact ih (n / 10) (Nat.div_lt_self (by omega) (by omega)) c hc

lemma digitsLE_inj : ∀ a b : Nat, digitsLE a = digitsLE b → a = b := by
  intro a
  induction a using Nat.strong_induction_on with
  | _ a ih =>
    intro b h
    by_cases ha : a < 10 <;> by_cases hb : b < 10
    · rw [digitsLE_lt ha, digitsLE_lt hb] at h
      simp at h
      exact digitChar_inj_lt a ha b hb h
    · rw [digitsLE_lt ha, digitsLE_ge hb] at h
      simp at h
      exact absurd h.2 (digitsLE_ne_nil _)
    · rw [digitsLE_ge ha, digitsLE_lt hb] at h
      simp at h
      exact absurd h.2 (digitsLE_ne_nil _)
    · rw [digitsLE_ge ha, digitsLE_ge hb] at h
      simp at h
      have h1 : a % 10 = b % 10 := digitChar_inj_lt _ (by omega) _ (by omega) h.1
      have h2 : a / 10 = b / 10 :=
        ih (a / 10) (Nat.div_lt_self (by omega) (by omega)) _ h.2
      omega

lemma natRepr_inj : ∀ a b : Nat, Nat.repr a = Nat.repr b → a = b := by
  intro a b h
  rw [natRepr_eq, natRepr_eq] at h
  have hd := congrArg String.data h
  simp only [List.asString] at hd
  exact digitsLE_inj a b (List.reverse_injective hd)

lemma dash_not_mem_digitsLE (n : Nat) : '-' ∉ digitsLE n := by
  intro hmem
  obtain ⟨d, hd, hc⟩ := mem_digitsLE n '-' hmem
  have hne : ∀ x < 10, Nat.digitChar x ≠ '-' := by decide
  exact hne d hd hc.symm

lemma natRepr_ne_dash_append (m : Nat) (s : String) : Nat.repr m ≠ "-" ++ s := by
  intro h
  have hd := congrArg String.data h
  rw [natRepr_eq] at hd
  simp only [String.data_append, List.asString] at hd
  have hmem : '-' ∈ (digitsLE m).reverse := by
    rw [hd]
    simp [String.data]
  exact dash_not_mem_digitsLE m (List.mem_reverse.mp hmem)

lemma intToString_inj : ∀ a b : Int, toString a = toString b → a = b := by
  intro a b h
  cases a with
  | ofNat m =>
    cases b with
    | ofNat k =>
      exact congrArg Int.ofNat (natRepr_inj m k h)
    | negSucc k =>
      exact absurd h (natRepr_ne_dash_append m _)
  | negSucc m =>
    cases b with
    | ofNat k =>
      exact absurd h.symm (natRepr_ne_dash_append k _)
    | negSucc k =>
      have h' : "-" ++ Nat.repr (m + 1) = "-" ++ Nat.repr (k + 1) := h
      have hd := congrArg String.data h'
      simp only [String.data_append] at hd
      have hmk : Nat.repr (m + 1) = Nat.repr (k + 1) :=
        String.ext (List.append_cancel_left hd)
      have := natRepr_inj _ _ hmk
      have hm : m = k := by omega
      exact congrArg Int.negSucc hm

/-! ### Invariants of the deduplicate/filter loop -/

/-- A decoded class carries exactly the integer found in the record's
`id` field. -/
lemma fromValue_getId {v : Value} {c : FilteredClass} (h : fromValue v = some c) :
    getId v = some c.id := by
  simp only [fromValue, Option.bind_eq_bind, Option.bind_eq_some, pure,
    Option.some.injEq] at h
  obtain ⟨be, -, bl, -, i, ⟨a, ha, ha2⟩, nm, -, dur, -, gap, -, bu, -,
    locs, -, ins, -, em, -, can, -, sl, -, hc⟩ := h
  subst hc
  simpa [getId, ha] using ha2

/-- `seen_ids` only grows while the loop runs. -/
lemma seenAfter_mono (items : List Value) : ∀ (seen : List String) (s : String),
    s ∈ seen → s ∈ seenAfter items seen := by
  induction items with
  | nil => intro seen s hs; simpa [seenAfter] using hs
  | cons item rest ih =>
    intro seen s hs
    rw [seenAfter]
    cases hg : getId item with
    | none => simpa [hg] using ih seen s hs
    | some i =>
      by_cases hc : toString i ∈ seen
      · simpa [hg, hc] using ih seen s hs
      · simpa [hg, hc] using ih _ s (List.mem_cons_of_mem _ hs)

/-- Once any record bearing identifier `i` has been processed, the decimal
string of `i` is in `seen_ids` — whether or not the record was accepted. -/
lemma mem_seenAfter_of_getId (items : List Value) : ∀ (seen : List String)
    (x : Value) (i : Int), x ∈ items → getId x = some i →
    toString i ∈ seenAfter items seen := by
  induction items with
  | nil => intro seen x i hx; exact absurd hx (List.not_mem_nil x)
  | cons item rest ih =>
    intro seen x i hx hgx
    rw [seenAfter]
    rcases List.mem_cons.mp hx with hx | hx
    · subst hx
      by_cases hc : toString i ∈ seen
      · simpa [hgx, hc] using seenAfter_mono rest seen _ hc
      · simpa [hgx, hc] using seenAfter_mono rest _ _ (List.mem_cons_self _ _)
    · cases hg : getId item with
      | none => simpa [hg] using ih seen x i hx hgx
      | some j =>
        by_cases hc : toString j ∈ seen
        · simpa [hg, hc] using ih seen x i hx hgx
        · simpa [hg, hc] using ih _ x i hx hgx

/-- If no record of the list bears identifier `i` and `i`'s string was not
seen before the loop, it is not seen after it either. -/
lemma not_mem_seenAfter (items : List Value) : ∀ (seen : List String) (i : Int),
    (∀ x ∈ items, ∀ j : Int, getId x = some j → j ≠ i) →
    toString i ∉ seen → toString i ∉ seenAfter items seen := by
  induction items with
  | nil => intro seen i _ hs; simpa [seenAfter] using hs
  | cons item rest ih =>
    intro seen i hno hs
    rw [seenAfter]
    cases hg : getId item with
    | none =>
      simpa [hg] using ih seen i (fun x hx => hno x (List.mem_cons_of_mem _ hx)) hs
    | some j =>
      have hji : j ≠ i := hno item (List.mem_cons_self _ _) j hg
      by_cases hc : toString j ∈ seen
      · simpa [hg, hc] using ih seen i (fun x hx => hno x (List.mem_cons_of_mem _ hx)) hs
      · have hs' : toString i ∉ (toString j :: seen) := by
          intro hmem
          rcases List.mem_cons.mp hmem with hmem | hmem
          · exact hji (intToString_inj j i hmem.symm)
          · exact hs hmem
        simpa [hg, hc] using ih _ i (fun x hx => hno x (List.mem_cons_of_mem _ hx)) hs'

/-- The loop over a concatenation: the second part runs with the `seen_ids`
state left by the first. -/
lemma filterClasses_append (xs : List Value) : ∀ (ys : List Value) (seen : List String),
    filterClasses (xs ++ ys) seen =
      filterClasses xs seen ++ filterClasses ys (seenAfter xs seen) := by
  induction xs with
  | nil => intro ys seen; simp [filterClasses, seenAfter]
  | cons item rest ih =>
    intro ys seen
    rw [List.cons_append, filterClasses, filterClasses, seenAfter]
    cases hg : getId item with
    | none => simpa [hg] using ih ys seen
    | some i =>
      by_cases hc : toString i ∈ seen
      · simpa [hg, hc] using ih ys seen
      · by_cases hb : hasBookable item = true
        · cases hd : fromValue item with
          | none => simpa [hg, hc, hb, hd] using ih ys _
          | some c0 => simpa [hg, hc, hb, hd] using ih ys _
        · simpa [hg, hc, hb] using ih ys _

/-- Every class in the filter's output decodes from some input record that
passed the booking-window presence test. -/
lemma mem_filterClasses_src (items : List Value) : ∀ (seen : List String)
    (c : FilteredClass), c ∈ filterClasses items seen →
    ∃ v, v ∈ items ∧ hasBookable v = true ∧ fromValue v = some c := by
  induction items with
  | nil => intro seen c hc; simp [filterClasses] at hc
  | cons item rest ih =>
    intro seen c hc
    rw [filterClasses] at hc
    have step : ∀ s' : List String, c ∈ filterClasses rest s' →
        ∃ v, v ∈ item :: rest ∧ hasBookable v = true ∧ fromValue v = some c := by
      intro s' h'
      obtain ⟨v, hv, hb, hd⟩ := ih s' c h'
      exact ⟨v, List.mem_cons_of_mem _ hv, hb, hd⟩
    cases hg : getId item with
    | none =>
      simp only [hg] at hc
      exact step seen hc
    | some i =>
      by_cases hcon : toString i ∈ seen
      · simp [hg, hcon] at hc
        exact step seen hc
      · by_cases hb : hasBookable item = true
        · cases hd : fromValue item with
          | none =>
            simp [hg, hcon, hb, hd] at hc
            exact step _ hc
          | some c0 =>
            simp [hg, hcon, hb, hd] at hc
            rcases hc with hceq | hc
            · exact ⟨item, List.mem_cons_self _ _, hb, by rw [hd, hceq]⟩
            · exact step _ hc
        · simp [hg, hcon, hb] at hc
          exact step _ hc

/-- An output class's id string was not in `seen_ids` when the loop
started. -/
lemma mem_filterClasses_not_seen (items : List Value) : ∀ (seen : List String)
    (c : FilteredClass), c ∈ filterClasses items seen → toString c.id ∉ seen := by
  induction items with
  | nil => intro seen c hc; simp [filterClasses] at hc
  | cons item rest ih =>
    intro seen c hc
    rw [filterClasses] at hc
    cases hg : getId item with
    | none =>
      simp only [hg] at hc
      exact ih seen c hc
    | some i =>
      by_cases hcon : toString i ∈ seen
      · simp [hg, hcon] at hc
        exact ih seen c hc
      · have weaken : toString c.id ∉ (toString i :: seen) → toString c.id ∉ seen :=
          fun hn hmem => hn (List.mem_cons_of_mem _ hmem)
        by_cases hb : hasBookable item = true
        · cases hd : fromValue item with
          | none =>
            simp [hg, hcon, hb, hd] at hc
            exact weaken (ih _ c hc)
          | some c0 =>
            simp [hg, hcon, hb, hd] at hc
            rcases hc with hceq | hc
            · have hgid : getId item = some c0.id := fromValue_getId hd
              rw [hg] at hgid
              have hid : c.id = i := by rw [hceq, Option.some.inj hgid]
              rw [hid]
              exact hcon
            · exact weaken (ih _ c hc)
        · simp [hg, hcon, hb] at hc
          exact weaken (ih _ c hc)

/-- The identifiers of the filter's output are pairwise distinct. -/
lemma filterClasses_ids_nodup (items : List Value) : ∀ (seen : List String),
    ((filterClasses items seen).map FilteredClass.id).Nodup := by
  induction items with
  | nil => intro seen; simp [filterClasses]
  | cons item rest ih =>
    intro seen
    rw [filterClasses]
    cases hg : getId item with
    | none => simpa [hg] using ih seen
    | some i =>
      by_cases hcon : toString i ∈ seen
      · simpa [hg, hcon] using ih seen
      · by_cases hb : hasBookable item = true
        · cases hd : fromValue item with
          | none => simpa [hg, hcon, hb, hd] using ih _
          | some c0 =>
            have hgid : getId item = some c0.id := fromValue_getId hd
            rw [hg] at hgid
            have hid : c0.id = i := (Option.some.inj hgid).symm
            simp only [hg, hcon, hb, hd, if_true, if_false]
            simp [hg, hcon, hb, hd, List.nodup_cons]
            constructor
            · intro c' hc' hid'
              have hns := mem_filterClasses_not_seen rest _ c' hc'
              rw [hid'] at hns
              rw [hid] at hns
              exact hns (List.mem_cons_self _ _)
            · exact ih _
        · simpa [hg, hcon, hb] using ih _

/-! ### The spec's cache key schema, stated in its own words -/

/-- The spec's `{isoWeek:02d}` directive: the decimal rendering, left-padded
with `0` when it is shorter than two digits. -/
def spec_pad2 (w : Int) : String :=
  if 2 ≤ (toString w).length then toString w else "0" ++ toString w

/-- The spec's week-snapshot key schema
`schedule:{subdomain}:{businessUnit}:{isoYear}-W{isoWeek:02d}`. -/
def spec_week_key (subdomain : String) (business_unit : Nat)
    (iso_year iso_week : Int) : String :=
  "schedule:" ++ subdomain ++ ":" ++ toString business_unit ++ ":"
    ++ toString iso_year ++ "-W" ++ spec_pad2 iso_week

/-- The spec's per-class key schema `class:{subdomain}:{businessUnit}:{classId}`. -/
def spec_class_key (subdomain : String) (business_unit : Nat)
    (class_id : Int) : String :=
  "class:" ++ subdomain ++ ":" ++ toString business_unit ++ ":" ++ toString class_id

/-- On the ISO week range 1–53, Rust's `{:02}` agrees with the spec's
`{:02d}` directive. -/
lemma pad2_eq_spec_pad2 {w : Int} (h1 : 1 ≤ w) (h2 : w ≤ 53) : pad2 w = spec_pad2 w := by
  interval_cases w <;> rfl

/-- The week-snapshot key for ISO week 2024-W01, fully rendered. -/
lemma week_key_2024_w01 (sub : String) (bu : Nat) (cls : List FilteredClass) :
    (store_schedule_with_week sub bu (2024, 1) cls).key
      = "schedule:" ++ sub ++ ":" ++ toString bu ++ ":2024-W01" := by
  apply String.ext
  simp only [store_schedule_with_week, String.data_append, List.append_assoc]
  have h2024 : (toString (2024 : Int)).data = ['2', '0', '2', '4'] := rfl
  have hpad : (pad2 1).data = ['0', '1'] := rfl
  rw [h2024, hpad]
  rfl

/-! ### The claims -/

/-- Claim C1: for the input window Monday 2024-01-01 to Sunday 2024-01-07
(the week of reference date 2024-01-01, a Monday) and the upstream list
with identifiers `[5, 5, 7, 9]` — id 5's first occurrence with both booking
fields, id 5's second occurrence lacking `bookableLatest`, id 7 lacking
`bookableEarliest`, id 9 with both — the deduplicate/filter step produces
exactly `[class(5), class(9)]` in that order (first-occurrence insertion
order), and the week-snapshot write for that window uses the key
`schedule:{sub}:{bu}:2024-W01`. -/
theorem claim_C1 (sub : String) (bu : Nat) :
    get_current_iso_week (days_from_civil 2024 1 1)
      = (days_from_civil 2024 1 1, days_from_civil 2024 1 7, (2024, 1)) ∧
    num_days_from_monday (days_from_civil 2024 1 1) = 0 ∧
    filterClasses scenarioItems [] = [class5, class9] ∧
    class5.id = 5 ∧ class9.id = 9 ∧
    (store_schedule_with_week sub bu (get_current_iso_week (days_from_civil 2024 1 1)).2.2
        (filterClasses scenarioItems [])).key
      = "schedule:" ++ sub ++ ":" ++ toString bu ++ ":2024-W01" := by
  refine ⟨by decide, by decide, rfl, rfl, rfl, ?_⟩
  have h : (get_current_iso_week (days_from_civil 2024 1 1)).2.2 = (2024, 1) := by decide
  rw [h]
  exact week_key_2024_w01 sub bu _

/-- Claim C2 counterexample: the claim says a record is dropped as a
duplicate only when its identifier was already *accepted* earlier.  Here
the first record with id 5 is rejected (no `bookableLatest`), the second
record with id 5 satisfies every other condition, yet the output is empty —
the loop marked id 5 as seen before the booking-window check. -/
theorem claim_C2_counterexample :
    getId item5NoLatest = some 5 ∧ hasBookable item5NoLatest = false ∧
    getId item5Full = some 5 ∧ hasBookable item5Full = true ∧
    fromValue item5Full = some class5 ∧
    filterClasses [item5NoLatest, item5Full] [] = [] :=
  ⟨rfl, rfl, rfl, rfl, rfl, rfl⟩

/-- Claim C2 (amended): a record is dropped as a duplicate when any earlier
record in the list bore the same valid integer identifier, whether or not
that earlier record was accepted.  If no earlier record bore identifier
`i`, a later record with identifier `i` satisfying all other conditions
still appears in the output; if some earlier record bore identifier `i`,
the later record contributes nothing to the output. -/
theorem claim_C2_amended (xs ys : List Value) (r : Value) (i : Int) (c : FilteredClass)
    (hid : getId r = some i) (hb : hasBookable r = true) (hd : fromValue r = some c) :
    ((∀ x ∈ xs, ∀ j : Int, getId x = some j → j ≠ i) →
      c ∈ filterClasses (xs ++ r :: ys) []) ∧
    ((∃ x ∈ xs, getId x = some i) →
      filterClasses (xs ++ r :: ys) [] = filterClasses (xs ++ ys) []) := by
  constructor
  · intro hno
    rw [filterClasses_append]
    apply List.mem_append_right
    have hni : toString i ∉ seenAfter xs [] :=
      not_mem_seenAfter xs [] i hno (List.not_mem_nil _)
    rw [filterClasses]
    simp [hid, hni, hb, hd]
  · rintro ⟨x, hx, hgx⟩
    have hmem : toString i ∈ seenAfter xs [] := mem_seenAfter_of_getId xs [] x i hx hgx
    rw [filterClasses_append, filterClasses_append]
    have hskip : filterClasses (r :: ys) (seenAfter xs []) =
        filterClasses ys (seenAfter xs []) := by
      rw [filterClasses]
      simp [hid, hmem]
    rw [hskip]

/-- Claim C2 amended, witnessed at concrete inputs: id 9 after a sole id-5
record does appear; a repeat of the id-5 record contributes nothing. -/
theorem claim_C2_amended_witness :
    class9 ∈ filterClasses ([item5NoLatest] ++ item9Full :: []) [] ∧
    filterClasses ([item5Full] ++ item5Full :: [item9Full]) [] =
      filterClasses ([item5Full] ++ [item9Full]) [] :=
  ⟨(claim_C2_amended [item5NoLatest] [] item9Full 9 class9 rfl rfl rfl).1
      (by
        intro x hx j hgj
        have hx' : x = item5NoLatest := List.mem_singleton.mp hx
        subst hx'
        have h5 : getId item5NoLatest = some 5 := rfl
        rw [h5] at hgj
        have hj : j = 5 := (Option.some.inj hgj).symm
        omega),
   (claim_C2_amended [item5Full] [item9Full] item5Full 5 class5 rfl rfl rfl).2
      ⟨item5Full, List.mem_cons_self _ _, rfl⟩⟩

/-- Claim C3 counterexample: the claim says an identifier occurring
`N ≥ 1` times yields *exactly one* output class with that identifier.  Id 7
occurs once here, but its only record lacks `bookableEarliest`, so the
output contains no class with id 7 at all. -/
theorem claim_C3_counterexample :
    List.countP (fun v => getId v == some (7 : Int)) [item7NoEarliest] = 1 ∧
    filterClasses [item7NoEarliest] [] = [] ∧
    ((filterClasses [item7NoEarliest] []).map FilteredClass.id).count 7 = 0 :=
  ⟨rfl, rfl, rfl⟩

/-- Claim C3 (amended): the filter is deterministic — running it twice on
the same input yields the same output both times — and each identifier
occurs **at most** once in the output (exactly once cannot be guaranteed:
every occurrence of an identifier may fail the booking-window or decode
checks, leaving no output class with that identifier). -/
theorem claim_C3_amended (items : List Value) (i : Int) :
    filterClasses items [] = filterClasses items [] ∧
    ((filterClasses items []).map FilteredClass.id).count i ≤ 1 :=
  ⟨rfl, List.nodup_iff_count_le_one.mp (filterClasses_ids_nodup items []) i⟩

/-- Claim C4: every class in the filtered output decodes from an input
record in which both `bookableEarliest` and `bookableLatest` were present;
equivalently, a record missing either field never appears in the output. -/
theorem claim_C4 (items : List Value) (c : FilteredClass)
    (h : c ∈ filterClasses items []) :
    ∃ v, v ∈ items ∧ (v.get "bookableEarliest").isSome = true ∧
      (v.get "bookableLatest").isSome = true ∧ fromValue v = some c := by
  obtain ⟨v, hv, hb, hd⟩ := mem_filterClasses_src items [] c h
  rw [hasBookable, Bool.and_eq_true] at hb
  exact ⟨v, hv, hb.1, hb.2, hd⟩

/-- Claim C4, witnessed on the scenario input at `class5`. -/
theorem claim_C4_witness :
    class5 ∈ filterClasses scenarioItems [] ∧
    ∃ v, v ∈ scenarioItems ∧ (v.get "bookableEarliest").isSome = true ∧
      (v.get "bookableLatest").isSome = true ∧ fromValue v = some class5 :=
  ⟨by simp [show filterClasses scenarioItems [] = [class5, class9] from rfl],
   claim_C4 scenarioItems class5
     (by simp [show filterClasses scenarioItems [] = [class5, class9] from rfl])⟩

/-- Claim C5: a transport-level failure, a non-success HTTP status, or a
body that fails to parse is fatal for that window — the error propagates,
no empty result is substituted — and an HTTP 500 on the next-week fetch
makes the whole run exit non-zero with no cache write attempted, while the
already completed current-week fetch result is unaffected. -/
theorem claim_C5 :
    (∀ e : String, fetch_brp_schedule_for_week (.error e) = .error e) ∧
    (∀ r : HttpResponse, statusIsSuccess r.status = false →
      fetch_brp_schedule_for_week (.ok r)
        = .error ("Failed to fetch schedule: " ++ toString r.status)) ∧
    (∀ (s : Nat) (e : String), statusIsSuccess s = true →
      fetch_brp_schedule_for_week (.ok ⟨s, .error e⟩) = .error e) ∧
    (∀ (sub : String) (bu : Nat) (today : Int) (cur : Except String HttpResponse)
      (wr : CacheEntry → Except String Unit) (sched : List FilteredClass)
      (b : Except String (List Value)),
      fetch_brp_schedule_for_week cur = .ok sched →
      (mainRun sub bu today cur (.ok ⟨500, b⟩) wr).exit
          = .error "Failed to fetch schedule: 500" ∧
      (mainRun sub bu today cur (.ok ⟨500, b⟩) wr).writes = []) := by
  refine ⟨fun e => rfl, fun r hr => ?_, fun s e hs => ?_,
    fun sub bu today cur wr sched b hcur => ?_⟩
  · simp [fetch_brp_schedule_for_week, hr]
  · simp [fetch_brp_schedule_for_week, hs]
  · have hstr : ("Failed to fetch schedule: " ++ toString (500 : Nat))
        = "Failed to fetch schedule: 500" := rfl
    have hnext : fetch_brp_schedule_for_week (.ok ⟨500, b⟩)
        = .error ("Failed to fetch schedule: " ++ toString (500 : Nat)) := rfl
    have hnext2 : fetch_brp_schedule_for_week (.ok ⟨500, b⟩)
        = .error "Failed to fetch schedule: 500" := hnext.trans (congrArg Except.error hstr)
    exact ⟨by simp [mainRun, hcur, hnext2], by simp [mainRun, hcur, hnext2]⟩

/-- Claim C5, witnessed at concrete exchanges: a transport error, a 404, a
parse failure on a 200, and a successful current-week fetch followed by a
500 on the next-week fetch (non-zero exit, no writes). -/
theorem claim_C5_witness :
    fetch_brp_schedule_for_week (.error "connection reset") = .error "connection reset" ∧
    statusIsSuccess 404 = false ∧
    fetch_brp_schedule_for_week (.ok ⟨404, .ok []⟩)
      = .error ("Failed to fetch schedule: " ++ toString (404 : Nat)) ∧
    statusIsSuccess 200 = true ∧
    fetch_brp_schedule_for_week (.ok ⟨200, .error "invalid json"⟩) = .error "invalid json" ∧
    fetch_brp_schedule_for_week (.ok ⟨200, .ok scenarioItems⟩) = .ok [class5, class9] ∧
    (mainRun "sats" 3 738886 (.ok ⟨200, .ok scenarioItems⟩) (.ok ⟨500, .ok []⟩)
        (fun _ => .ok ())).exit = .error "Failed to fetch schedule: 500" ∧
    (mainRun "sats" 3 738886 (.ok ⟨200, .ok scenarioItems⟩) (.ok ⟨500, .ok []⟩)
        (fun _ => .ok ())).writes = [] :=
  ⟨claim_C5.1 "connection reset", rfl, claim_C5.2.1 ⟨404, .ok []⟩ rfl, rfl,
   claim_C5.2.2.1 200 "invalid json" rfl, rfl,
   (claim_C5.2.2.2 "sats" 3 738886 (.ok ⟨200, .ok scenarioItems⟩) (fun _ => .ok ())
     [class5, class9] (.ok []) rfl).1,
   (claim_C5.2.2.2 "sats" 3 738886 (.ok ⟨200, .ok scenarioItems⟩) (fun _ => .ok ())
     [class5, class9] (.ok []) rfl).2⟩

/-- Claim C6: no cache write of any kind is attempted unless both the
current-week fetch and the next-week fetch completed successfully — a
fatal failure of either fetch leaves the submitted-write list empty. -/
theorem claim_C6 (sub : String) (bu : Nat) (today : Int)
    (cur nxt : Except String HttpResponse) (wr : CacheEntry → Except String Unit)
    (h : (∃ e, fetch_brp_schedule_for_week cur = .error e) ∨
         (∃ e, fetch_brp_schedule_for_week nxt = .error e)) :
    (mainRun sub bu today cur nxt wr).writes = [] := by
  rcases h with ⟨e, he⟩ | ⟨e, he⟩
  · simp [mainRun, he]
  · cases hc : fetch_brp_schedule_for_week cur with
    | error e2 => simp [mainRun, hc]
    | ok sched => simp [mainRun, hc, he]

/-- Claim C6, witnessed: a successful current-week fetch followed by a 503
on the next-week fetch produces no cache writes at all. -/
theorem claim_C6_witness :
    (mainRun "sats" 3 738886 (.ok ⟨200, .ok scenarioItems⟩) (.ok ⟨503, .ok []⟩)
        (fun _ => .ok ())).writes = [] :=
  claim_C6 "sats" 3 738886 (.ok ⟨200, .ok scenarioItems⟩) (.ok ⟨503, .ok []⟩)
    (fun _ => .ok ())
    (.inr ⟨"Failed to fetch schedule: " ++ toString (503 : Nat), rfl⟩)

/-- Claim C7: when both fetches succeed, the run exits zero, and the full
write sequence (current-week snapshot, current-week per-class writes,
next-week snapshot, next-week per-class writes) is submitted regardless of
how many individual cache writes fail — write failures are non-fatal. -/
theorem claim_C7 (sub : String) (bu : Nat) (today : Int)
    (cur nxt : Except String HttpResponse)
    (wr wr' : CacheEntry → Except String Unit)
    (cs ns : List FilteredClass)
    (hc : fetch_brp_schedule_for_week cur = .ok cs)
    (hn : fetch_brp_schedule_for_week nxt = .ok ns) :
    (mainRun sub bu today cur nxt wr).exit = .ok () ∧
    (mainRun sub bu today cur nxt wr).writes =
      store_schedule_with_week sub bu (get_current_iso_week today).2.2 cs
        :: (cs.map (store_class sub bu)
          ++ store_schedule_with_week sub bu (get_next_iso_week today).2.2 ns
          :: ns.map (store_class sub bu)) ∧
    (mainRun sub bu today cur nxt wr).writes = (mainRun sub bu today cur nxt wr').writes := by
  refine ⟨?_, ?_, ?_⟩ <;> simp [mainRun, hc, hn]

/-- Claim C7, witnessed: with every cache write failing, the run still
exits zero and submits the same writes as a run whose writes all succeed. -/
theorem claim_C7_witness :
    (mainRun "sats" 3 738886 (.ok ⟨200, .ok scenarioItems⟩) (.ok ⟨204, .ok []⟩)
        (fun _ => .error "redis down")).exit = .ok () ∧
    (mainRun "sats" 3 738886 (.ok ⟨200, .ok scenarioItems⟩) (.ok ⟨204, .ok []⟩)
        (fun _ => .error "redis down")).writes =
      store_schedule_with_week "sats" 3 (get_current_iso_week 738886).2.2 [class5, class9]
        :: ([class5, class9].map (store_class "sats" 3)
          ++ store_schedule_with_week "sats" 3 (get_next_iso_week 738886).2.2 []
          :: List.map (store_class "sats" 3) []) ∧
    (mainRun "sats" 3 738886 (.ok ⟨200, .ok scenarioItems⟩) (.ok ⟨204, .ok []⟩)
        (fun _ => .error "redis down")).writes =
      (mainRun "sats" 3 738886 (.ok ⟨200, .ok scenarioItems⟩) (.ok ⟨204, .ok []⟩)
        (fun _ => .ok ())).writes :=
  claim_C7 "sats" 3 738886 (.ok ⟨200, .ok scenarioItems⟩) (.ok ⟨204, .ok []⟩)
    (fun _ => .error "redis down") (fun _ => .ok ()) [class5, class9] [] rfl rfl

/-- Claim C8: every week-snapshot write and every per-class write sets a
time-to-live of exactly 604800 seconds, for all subdomains, business
units, weeks, classes and schedules. -/
theorem claim_C8 (sub : String) (bu : Nat) (iw : Int × Int)
    (cls : List FilteredClass) (c : FilteredClass) :
    (store_schedule_with_week sub bu iw cls).ttl = 604800 ∧
    (store_class sub bu c).ttl = 604800 :=
  ⟨rfl, rfl⟩

/-- Claim C9: for all subdomains, business units, ISO weeks (1–53) and
classes, the week-snapshot key is exactly
`schedule:{subdomain}:{businessUnit}:{isoYear}-W{isoWeek:02d}` and the
per-class key is exactly `class:{subdomain}:{businessUnit}:{classId}`,
per the spec's own schema definitions. -/
theorem claim_C9 (sub : String) (bu : Nat) (y w : Int) (cls : List FilteredClass)
    (c : FilteredClass) (h1 : 1 ≤ w) (h2 : w ≤ 53) :
    (store_schedule_with_week sub bu (y, w) cls).key = spec_week_key sub bu y w ∧
    (store_class sub bu c).key = spec_class_key sub bu c.id := by
  constructor
  · simp only [store_schedule_with_week, spec_week_key, pad2_eq_spec_pad2 h1 h2]
  · rfl

/-- Claim C9, witnessed at week 2024-W01 and `class5`. -/
theorem claim_C9_witness :
    (1 : Int) ≤ 1 ∧ (1 : Int) ≤ 53 ∧
    (store_schedule_with_week "sats" 3 (2024, 1) []).key = spec_week_key "sats" 3 2024 1 ∧
    (store_class "sats" 3 class5).key = spec_class_key "sats" 3 class5.id :=
  ⟨by decide, by decide,
   (claim_C9 "sats" 3 2024 1 [] class5 (by decide) (by decide)).1,
   (claim_C9 "sats" 3 2024 1 [] class5 (by decide) (by decide)).2⟩

/-- Claim C10: for every reference date `d`, the computed week start is a
Monday, the week end is the start plus six days, and the window contains
the reference date — for the current window at reference date `d` and the
next window at reference date `d + 7`. -/
theorem claim_C10 (d : Int) :
    num_days_from_monday (get_current_iso_week d).1 = 0 ∧
    (get_current_iso_week d).2.1 = (get_current_iso_week d).1 + 6 ∧
    (get_current_iso_week d).1 ≤ d ∧ d ≤ (get_current_iso_week d).2.1 ∧
    num_days_from_monday (get_next_iso_week d).1 = 0 ∧
    (get_next_iso_week d).2.1 = (get_next_iso_week d).1 + 6 ∧
    (get_next_iso_week d).1 ≤ d + 7 ∧ d + 7 ≤ (get_next_iso_week d).2.1 := by
  have h1 : (get_current_iso_week d).1 = d - (d - 1) % 7 := rfl
  have h2 : (get_current_iso_week d).2.1 = d - (d - 1) % 7 + 6 := rfl
  have h3 : (get_next_iso_week d).1 = d + 7 - (d + 7 - 1) % 7 := rfl
  have h4 : (get_next_iso_week d).2.1 = d + 7 - (d + 7 - 1) % 7 + 6 := rfl
  rw [h1, h2, h3, h4]
  simp only [num_days_from_monday]
  refine ⟨?_, trivial, by omega, by omega, ?_, trivial, by omega, by omega⟩
  · have hq : d - (d - 1) % 7 - 1 = 7 * ((d - 1) / 7) := by omega
    rw [hq]
    exact Int.mul_emod_right 7 _
  · have hq : d + 7 - (d + 7 - 1) % 7 - 1 = 7 * ((d + 7 - 1) / 7) := by omega
    rw [hq]
    exact Int.mul_emod_right 7 _

end RezervoCache
